import Mathlib

/-!
# User directory controller

A shallow embedding of `api/src/controllers/user.js`: the authenticated
route handlers of the user router (`GET /available`, `GET /:id`, `POST /`,
`GET /`, `PUT /:id`, `PUT /`, `DELETE /:id`).

Each handler is a function from the authenticated principal (`req.user`), the
request data and the repository state to the HTTP response and the next
repository state.  The handlers are translated from the controller.  The
controller reaches the store through `UserObject` (`../models/user`), which is
not part of the controller file: the record type and the repository operations
the handlers call are modelled after the specification's abstract repository,
and are marked as such.  The credential validators (`validatePassword` from
`../utils`, `emailValidator.validate`) are parameters of `createUser`.
-/

namespace UserController

/-! ## Values, records and the repository state -/

/-- Scalar values of query filters and stored fields; `null` also stands for
an absent field. -/
inductive Value where
  | null
  | str (s : String)
  | num (n : Nat)
  deriving DecidableEq, Repr

/-- Modelled from the spec: the User schema of `../models/user` (absent).
Attributes as listed in the data model: identifier, name, organisation, email,
password, status, availability, role, last_login_at.  The identifier is
repository-assigned; `organisation` is the tenant key; the other text
attributes may be absent; `last_login_at` is a timestamp, absent until the
first signin. -/
structure User where
  _id : Nat
  name : Option String
  organisation : String
  email : Option String
  password : Option String
  status : Option String
  availability : Option String
  role : Option String
  last_login_at : Option Nat
  deriving DecidableEq, Repr

/-- Modelled from the spec: the state of the abstract User Repository behind
`UserObject` (absent): the stored records in insertion order and the next
identifier the repository will assign. -/
structure Store where
  users : List User
  nextId : Nat
  deriving DecidableEq, Repr

/-- The authenticated principal `req.user` yielded by the token-verification
middleware: the handlers read `req.user._id` and `req.user.organisation`. -/
structure Principal where
  _id : Nat
  organisation : String
  deriving DecidableEq, Repr

/-- An exception thrown by a repository call; the controller inspects only
`error.code`. -/
structure RepoError where
  code : Option Nat
  name : String
  deriving DecidableEq, Repr

/-! ## JavaScript objects used as filters -/

/-- A filter condition on one field: an equality (`field: v`) or the
operator form `field: { $ne: v }`. -/
inductive Cond where
  | eq (v : Value)
  | ne (v : Value)
  deriving DecidableEq, Repr

/-- A filter object: keys with their conditions, in key order. -/
abbrev Filter := List (String × Cond)

/-- Property assignment on an object, as in the literal `{ ...o, k: c }`: an
existing key keeps its place and takes the new value (at every entry, should
the list repeat the key), a new key is appended. -/
def Obj.set (o : Filter) (k : String) (c : Cond) : Filter :=
  if o.any (fun e => e.1 == k) then o.map (fun e => if e.1 == k then (k, c) else e)
  else o ++ [(k, c)]

/-- Property lookup `o[k]`. -/
def Obj.get? (o : Filter) (k : String) : Option Cond :=
  (o.find? (fun e => e.1 == k)).map Prod.snd

/-- The object without the key `k`. -/
def Obj.erase (o : Filter) (k : String) : Filter :=
  o.filter (fun e => !(e.1 == k))

/-- The value a record holds under a field name; a name outside the schema
holds nothing. -/
def User.field (u : User) (k : String) : Value :=
  let text : Option String → Value := fun o => match o with
    | some s => Value.str s
    | none => Value.null
  if k = "_id" then Value.num u._id
  else if k = "name" then text u.name
  else if k = "organisation" then Value.str u.organisation
  else if k = "email" then text u.email
  else if k = "password" then text u.password
  else if k = "status" then text u.status
  else if k = "availability" then text u.availability
  else if k = "role" then text u.role
  else if k = "last_login_at" then
    (match u.last_login_at with
      | some t => Value.num t
      | none => Value.null)
  else Value.null

/-- Whether a field value satisfies a condition. -/
def Cond.holds (c : Cond) (v : Value) : Bool :=
  match c with
  | Cond.eq w => decide (v = w)
  | Cond.ne w => decide (v ≠ w)

/-- A record matches a filter when it satisfies the condition of every key. -/
def Filter.matches (f : Filter) (u : User) : Bool :=
  f.all (fun e => e.2.holds (u.field e.1))

/-! ## Ordering by `last_login_at` -/

/-- Order on `last_login_at` values: an absent timestamp is below every
timestamp. -/
def lastLoginLE : Option Nat → Option Nat → Bool
  | none, _ => true
  | some _, none => false
  | some a, some b => decide (a ≤ b)

/-- The relation `a` may precede `b` in a list sorted by `-last_login_at`. -/
def loginDesc (a b : User) : Prop := lastLoginLE b.last_login_at a.last_login_at = true

instance loginDescDecidable : DecidableRel loginDesc :=
  fun a b => inferInstanceAs (Decidable (lastLoginLE b.last_login_at a.last_login_at = true))

/-- Modelled from the spec: the query modifier `.sort("-last_login_at")` of the
repository (absent): the records ordered by `last_login_at` descending, ties
kept in their stored order. -/
def sortByLastLoginDesc (us : List User) : List User :=
  us.insertionSort loginDesc

/-! ## Repository operations

Every operation takes `fault`, a failure of the storage engine injected by the
environment (a lost connection, a rejected value): when present the call
throws it and writes nothing. -/

/-- Modelled from the spec: `UserObject.find` of the repository (absent),
find-many: the stored records that match the filter, in stored order. -/
def UserObject.find (fault : Option RepoError) (filter : Filter) (s : Store) :
    Except RepoError (List User) :=
  match fault with
  | some e => Except.error e
  | none => Except.ok (s.users.filter filter.matches)

/-- Modelled from the spec: `UserObject.findOne` of the repository (absent),
find-one: the first stored record that matches the filter, or nothing. -/
def UserObject.findOne (fault : Option RepoError) (filter : Filter) (s : Store) :
    Except RepoError (Option User) :=
  match fault with
  | some e => Except.error e
  | none => Except.ok (s.users.find? filter.matches)

/-- The document handed to `UserObject.create`. -/
structure NewUser where
  name : Option String
  organisation : String
  password : Option String
  email : Option String
  status : Option String
  availability : Option String
  role : Option String
  deriving DecidableEq, Repr

/-- The error of a violated uniqueness constraint, code 11000. -/
def duplicateKeyError : RepoError := { code := some 11000, name := "DuplicateKey" }

/-- Modelled from the spec: `UserObject.create` of the repository (absent).
The uniqueness constraint is on the organisation-qualified identity
(organisation and name): a duplicate throws error 11000 and writes nothing;
otherwise the record is stored under a fresh identifier. -/
def UserObject.create (fault : Option RepoError) (doc : NewUser) (s : Store) :
    Except RepoError (User × Store) :=
  match fault with
  | some e => Except.error e
  | none =>
    if s.users.any (fun u => decide (u.organisation = doc.organisation ∧ u.name = doc.name)) then
      Except.error duplicateKeyError
    else
      let user : User :=
        { _id := s.nextId, name := doc.name, organisation := doc.organisation,
          email := doc.email, password := doc.password, status := doc.status,
          availability := doc.availability, role := doc.role, last_login_at := none }
      Except.ok (user, { users := s.users ++ [user], nextId := s.nextId + 1 })

/-- The body of an update request: for each schema attribute, whether the key
is present and the value it carries (`some none` is an explicit `null`). -/
structure Patch where
  name : Option (Option String) := none
  organisation : Option String := none
  email : Option (Option String) := none
  password : Option (Option String) := none
  status : Option (Option String) := none
  availability : Option (Option String) := none
  role : Option (Option String) := none
  last_login_at : Option (Option Nat) := none
  deriving DecidableEq, Repr

/-- Modelled from the spec: how the repository (absent) writes a patch into a
record.  The data model gives the identifier as immutable and the organisation
as immutable after creation, so neither is written, whatever the patch
carries; every other attribute takes the value of its key when the patch holds
the key. -/
def Patch.apply (p : Patch) (u : User) : User :=
  { _id := u._id,
    name := p.name.getD u.name,
    organisation := u.organisation,
    email := p.email.getD u.email,
    password := p.password.getD u.password,
    status := p.status.getD u.status,
    availability := p.availability.getD u.availability,
    role := p.role.getD u.role,
    last_login_at := p.last_login_at.getD u.last_login_at }

/-- Modelled from the spec: the write of update-by-id in the repository
(absent): the first record that has the identifier is replaced. -/
def replaceById (id : Nat) (v : User) : List User → List User
  | [] => []
  | u :: us => if u._id = id then v :: us else u :: replaceById id v us

/-- Modelled from the spec: `UserObject.findByIdAndUpdate` of the repository
(absent), update-by-id with the option `new: true`: applies the patch to the
record with the identifier and returns the updated record, or returns nothing
when no record has the identifier; an update that would break the uniqueness
constraint throws error 11000 and writes nothing. -/
def UserObject.findByIdAndUpdate (fault : Option RepoError) (id : Nat) (obj : Patch)
    (s : Store) : Except RepoError (Option User × Store) :=
  match fault with
  | some e => Except.error e
  | none =>
    match s.users.find? (fun u => decide (u._id = id)) with
    | none => Except.ok (none, s)
    | some u =>
      let v := obj.apply u
      if s.users.any (fun w =>
          decide (w._id ≠ id ∧ w.organisation = v.organisation ∧ w.name = v.name)) then
        Except.error duplicateKeyError
      else
        Except.ok (some v, { users := replaceById id v s.users, nextId := s.nextId })

/-- Modelled from the spec: `UserObject.findOneAndRemove` of the repository
(absent), delete: removes the first stored record that matches the filter and
returns it, or returns nothing, without failing, when no record matches. -/
def UserObject.findOneAndRemove (fault : Option RepoError) (filter : Filter) (s : Store) :
    Except RepoError (Option User × Store) :=
  match fault with
  | some e => Except.error e
  | none =>
    Except.ok (s.users.find? filter.matches,
      { users := s.users.eraseP filter.matches, nextId := s.nextId })

/-! ## Responses -/

/-- The value under a `data` or `user` key of a response. -/
inductive Payload where
  | null
  | one (user : User)
  | many (users : List User)
  deriving DecidableEq, Repr

/-- The response envelope: a key that the handler does not send is `none`. -/
structure Body where
  ok : Bool
  code : Option String := none
  data : Option Payload := none
  user : Option Payload := none
  error : Option RepoError := none
  deriving DecidableEq, Repr

/-- The HTTP response: `res.status(status).send(body)`. -/
structure Response where
  status : Nat
  body : Body
  deriving DecidableEq, Repr

/-- The records a response carries under `data` or `user`. -/
def Response.records (r : Response) : List User :=
  let recs : Option Payload → List User := fun p => match p with
    | some (Payload.one u) => [u]
    | some (Payload.many us) => us
    | _ => []
  recs r.body.data ++ recs r.body.user

def SERVER_ERROR : String := "SERVER_ERROR"
def USER_ALREADY_REGISTERED : String := "USER_ALREADY_REGISTERED"
def PASSWORD_NOT_VALIDATED : String := "PASSWORD_NOT_VALIDATED"
def EMAIL_NOT_VALIDATED : String := "EMAIL_NOT_VALIDATED"

/-- A found record or `null` as a payload. -/
def Payload.ofOption : Option User → Payload
  | some u => Payload.one u
  | none => Payload.null

/-- String conversion of an operand of `+`: an absent value reads
`undefined`. -/
def jsString : Option String → String
  | some s => s
  | none => "undefined"

/-! ## Route handlers -/

/-- The filter of `GET /available`:
`{ availability: { $ne: "not available" }, organisation: req.user.organisation }`. -/
def availableFilter (user : Principal) : Filter :=
  [("availability", Cond.ne (Value.str "not available")),
   ("organisation", Cond.eq (Value.str user.organisation))]

/-- Handler of `GET /available`. -/
def listAvailable (fault : Option RepoError) (user : Principal) (s : Store) :
    Response × Store :=
  match (UserObject.find fault (availableFilter user) s).map sortByLastLoginDesc with
  | Except.ok users => ({ status := 200, body := { ok := true, data := some (Payload.many users) } }, s)
  | Except.error error =>
    ({ status := 500, body := { ok := false, code := some SERVER_ERROR, error := some error } }, s)

/-- Handler of `GET /:id`. -/
def getById (fault : Option RepoError) (_user : Principal) (id : Nat) (s : Store) :
    Response × Store :=
  match UserObject.findOne fault [("_id", Cond.eq (Value.num id))] s with
  | Except.ok data => ({ status := 200, body := { ok := true, data := some (Payload.ofOption data) } }, s)
  | Except.error error =>
    ({ status := 500, body := { ok := false, code := some SERVER_ERROR, error := some error } }, s)

/-- The body of `POST /`: the keys the handler reads. -/
structure CreateBody where
  password : Option String := none
  username : Option String := none
  email : Option String := none
  status : Option String := none
  availability : Option String := none
  role : Option String := none
  deriving DecidableEq, Repr

/-- The document `POST /` hands to `UserObject.create`:
`{ name: username, organisation: req.user.organisation + "-" + username, password, email, status, availability, role }`. -/
def createDoc (user : Principal) (body : CreateBody) : NewUser :=
  { name := body.username,
    organisation := user.organisation ++ "-" ++ jsString body.username,
    password := body.password, email := body.email, status := body.status,
    availability := body.availability, role := body.role }

/-- Handler of `POST /`. -/
def createUser (validatePassword validateEmail : Option String → Bool)
    (fault : Option RepoError) (user : Principal) (body : CreateBody) (s : Store) :
    Response × Store :=
  if !validatePassword body.password then
    ({ status := 400, body := { ok := false, user := some Payload.null, code := some PASSWORD_NOT_VALIDATED } }, s)
  else if !validateEmail body.email then
    ({ status := 400, body := { ok := false, user := some Payload.null, code := some EMAIL_NOT_VALIDATED } }, s)
  else
    match UserObject.create fault (createDoc user body) s with
    | Except.ok (created, s1) =>
      ({ status := 200, body := { data := some (Payload.one created), ok := true } }, s1)
    | Except.error error =>
      if error.code = some 11000 then
        ({ status := 409, body := { ok := false, code := some USER_ALREADY_REGISTERED } }, s)
      else ({ status := 500, body := { ok := false, code := some SERVER_ERROR } }, s)

/-- The filter of `GET /`: `{ ...req.query, organisation: req.user.organisation }`. -/
def listFilteredFilter (user : Principal) (query : Filter) : Filter :=
  Obj.set query "organisation" (Cond.eq (Value.str user.organisation))

/-- Handler of `GET /`. -/
def listFiltered (fault : Option RepoError) (user : Principal) (query : Filter) (s : Store) :
    Response × Store :=
  match (UserObject.find fault (listFilteredFilter user query) s).map sortByLastLoginDesc with
  | Except.ok users => ({ status := 200, body := { ok := true, data := some (Payload.many users) } }, s)
  | Except.error error =>
    ({ status := 500, body := { ok := false, code := some SERVER_ERROR, error := some error } }, s)

/-- Handler of `PUT /:id`. -/
def updateById (fault : Option RepoError) (_user : Principal) (id : Nat) (obj : Patch)
    (s : Store) : Response × Store :=
  match UserObject.findByIdAndUpdate fault id obj s with
  | Except.ok (updated, s1) =>
    ({ status := 200, body := { ok := true, user := some (Payload.ofOption updated) } }, s1)
  | Except.error error =>
    ({ status := 500, body := { ok := false, code := some SERVER_ERROR, error := some error } }, s)

/-- Handler of `PUT /`. -/
def updateSelf (fault : Option RepoError) (user : Principal) (obj : Patch) (s : Store) :
    Response × Store :=
  match UserObject.findByIdAndUpdate fault user._id obj s with
  | Except.ok (data, s1) =>
    ({ status := 200, body := { ok := true, data := some (Payload.ofOption data) } }, s1)
  | Except.error error =>
    ({ status := 500, body := { ok := false, code := some SERVER_ERROR, error := some error } }, s)

/-- Handler of `DELETE /:id`. -/
def deleteById (fault : Option RepoError) (_user : Principal) (id : Nat) (s : Store) :
    Response × Store :=
  match UserObject.findOneAndRemove fault [("_id", Cond.eq (Value.num id))] s with
  | Except.ok (_, s1) => ({ status := 200, body := { ok := true } }, s1)
  | Except.error error =>
    ({ status := 500, body := { ok := false, code := some SERVER_ERROR, error := some error } }, s)

/-! ## Sample data -/

def alice : User :=
  { _id := 1, name := some "alice", organisation := "acme", email := some "alice@acme.io",
    password := some "Passw0rd!", status := some "active", availability := some "available",
    role := some "admin", last_login_at := some 20 }

def bruno : User :=
  { _id := 2, name := some "bruno", organisation := "acme", email := some "bruno@acme.io",
    password := some "Passw0rd!", status := some "active",
    availability := some "not available", role := some "normal", last_login_at := some 30 }

def carla : User :=
  { _id := 3, name := some "carla", organisation := "other", email := some "carla@other.io",
    password := some "Passw0rd!", status := some "active", availability := some "available",
    role := some "normal", last_login_at := some 10 }

def dario : User :=
  { _id := 4, name := some "dario", organisation := "acme", email := some "dario@acme.io",
    password := some "Passw0rd!", status := some "active", availability := none,
    role := some "normal", last_login_at := some 40 }

def sampleStore : Store := { users := [alice, bruno, carla, dario], nextId := 5 }

def acmeAdmin : Principal := { _id := 1, organisation := "acme" }

/-- A password policy to run `createUser` with: at least eight characters. -/
def atLeastEight (candidate : Option String) : Bool :=
  match candidate with
  | some p => decide (8 ≤ p.length)
  | none => false

/-- An email check to run `createUser` with: the text holds an `@`. -/
def hasAtSign (candidate : Option String) : Bool :=
  match candidate with
  | some e => decide ('@' ∈ e.toList)
  | none => false

def bobBody : CreateBody :=
  { password := some "Passw0rd!", username := some "bob", email := some "bob@acme.io" }

/-- Identifiers are unique among the stored records. -/
def Store.uniqueIds (s : Store) : Prop := List.Nodup (s.users.map (fun u : User => u._id))

instance Store.uniqueIdsDecidable (s : Store) : Decidable s.uniqueIds :=
  inferInstanceAs (Decidable (List.Nodup (s.users.map (fun u : User => u._id))))

/-- A repository state as the repository produces it: identifiers are unique
and below the next identifier to assign. -/
def Store.wellFormed (s : Store) : Prop :=
  s.uniqueIds ∧ ∀ u ∈ s.users, u._id < s.nextId

/-- What an update by identifier leaves behind: nothing written and no
record answered, or the first record with the identifier replaced by its
patched version, which is the record answered. -/
def UpdateOutcome (id : Nat) (obj : Patch) (s : Store) (r : Response × Store) : Prop :=
  (r.2 = s ∧ r.1.records = [])
    ∨ ∃ u, s.users.find? (fun w => decide (w._id = id)) = some u
        ∧ r.2 = { users := replaceById id (obj.apply u) s.users, nextId := s.nextId }
        ∧ r.1.records = [obj.apply u]

/-! ## Filters and matching -/

theorem matches_iff (f : Filter) (u : User) :
    f.matches u = true ↔ ∀ e ∈ f, e.2.holds (u.field e.1) = true := by
  simp [Filter.matches, List.all_eq_true]

theorem field_organisation (u : User) : u.field "organisation" = Value.str u.organisation := by
  simp [User.field]

theorem field_availability (u : User) :
    u.field "availability" = (match u.availability with
      | some a => Value.str a
      | none => Value.null) := by
  simp [User.field]

theorem field_id (u : User) : u.field "_id" = Value.num u._id := by
  simp [User.field]

theorem matches_availableFilter (user : Principal) (u : User) :
    (availableFilter user).matches u = true ↔
      u.availability ≠ some "not available" ∧ u.organisation = user.organisation := by
  simp only [availableFilter, Filter.matches, List.all_cons, List.all_nil, Bool.and_true,
    Bool.and_eq_true, field_organisation, field_availability, Cond.holds]
  cases h : u.availability <;> simp

theorem matches_idFilter (id : Nat) (u : User) :
    Filter.matches [("_id", Cond.eq (Value.num id))] u = true ↔ u._id = id := by
  simp [Filter.matches, field_id, Cond.holds]

theorem mem_set (q : Filter) (k : String) (c : Cond) (e : String × Cond) :
    e ∈ Obj.set q k c ↔ e = (k, c) ∨ (e ∈ q ∧ e.1 ≠ k) := by
  unfold Obj.set
  by_cases h : q.any (fun e => e.1 == k) = true
  · rw [if_pos h]
    simp only [List.mem_map]
    constructor
    · rintro ⟨a, ha, rfl⟩
      by_cases hk : a.1 = k
      · left; simp [hk]
      · right; simp [hk, ha]
    · rintro (rfl | ⟨he, hk⟩)
      · obtain ⟨a, ha, hak⟩ := List.any_eq_true.mp h
        exact ⟨a, ha, by simp [hak]⟩
      · exact ⟨e, he, by simp [hk]⟩
  · rw [if_neg h]
    simp only [List.mem_append, List.mem_singleton]
    constructor
    · rintro (he | rfl)
      · right
        refine ⟨he, fun hk => h (List.any_eq_true.mpr ⟨e, he, by simp [hk]⟩)⟩
      · left; rfl
    · rintro (rfl | ⟨he, _⟩)
      · right; rfl
      · left; exact he

theorem mem_erase (q : Filter) (k : String) (e : String × Cond) :
    e ∈ Obj.erase q k ↔ e ∈ q ∧ e.1 ≠ k := by
  simp [Obj.erase]

/-- Matching against `{ ...q, k: c }`: the condition `c` on `k` and the
conditions of `q` on its other keys. -/
theorem matches_set (q : Filter) (k : String) (c : Cond) (u : User) :
    (Obj.set q k c).matches u = true ↔
      c.holds (u.field k) = true ∧ (Obj.erase q k).matches u = true := by
  simp only [matches_iff, mem_set, mem_erase]
  constructor
  · intro h
    exact ⟨h (k, c) (Or.inl rfl), fun e he => h e (Or.inr he)⟩
  · rintro ⟨hc, hq⟩ e (rfl | he)
    · exact hc
    · exact hq e he

theorem erase_erase (q : Filter) (k : String) : Obj.erase (Obj.erase q k) k = Obj.erase q k := by
  simp [Obj.erase, List.filter_filter]

theorem get_set (q : Filter) (k : String) (c : Cond) : Obj.get? (Obj.set q k c) k = some c := by
  unfold Obj.get?
  cases h : (Obj.set q k c).find? (fun e => e.1 == k) with
  | none =>
    have hn := List.find?_eq_none.mp h (k, c) ((mem_set q k c (k, c)).mpr (Or.inl rfl))
    simp at hn
  | some x =>
    have hx := List.mem_of_find?_eq_some h
    have hp := List.find?_some h
    rcases (mem_set q k c x).mp hx with rfl | ⟨_, hk⟩
    · rfl
    · exact absurd (by simpa using hp) hk

/-! ## Sorting -/

theorem lastLoginLE_total (a b : Option Nat) : lastLoginLE a b = true ∨ lastLoginLE b a = true := by
  cases a <;> cases b <;> simp [lastLoginLE]
  exact Nat.le_total _ _

theorem lastLoginLE_trans (a b c : Option Nat) (hab : lastLoginLE a b = true)
    (hbc : lastLoginLE b c = true) : lastLoginLE a c = true := by
  cases a <;> cases b <;> cases c <;> simp_all [lastLoginLE]
  exact Nat.le_trans hab hbc

theorem mem_sortByLastLoginDesc (us : List User) (u : User) :
    u ∈ sortByLastLoginDesc us ↔ u ∈ us :=
  (List.perm_insertionSort loginDesc us).mem_iff

theorem sortByLastLoginDesc_chain (us : List User) :
    List.Chain' loginDesc (sortByLastLoginDesc us) :=
  haveI : IsTotal User loginDesc :=
    ⟨fun a b => lastLoginLE_total b.last_login_at a.last_login_at⟩
  haveI : IsTrans User loginDesc :=
    ⟨fun a b c hab hbc =>
      lastLoginLE_trans c.last_login_at b.last_login_at a.last_login_at hbc hab⟩
  List.Pairwise.chain' (List.sorted_insertionSort loginDesc us)

/-! ## The records of the list responses -/

theorem listAvailable_records (fault : Option RepoError) (user : Principal) (s : Store) :
    (listAvailable fault user s).1.records =
      match fault with
      | some _ => []
      | none => sortByLastLoginDesc (s.users.filter (availableFilter user).matches) := by
  cases fault <;> simp [listAvailable, UserObject.find, Response.records, Except.map]

theorem listFiltered_records (fault : Option RepoError) (user : Principal) (query : Filter)
    (s : Store) :
    (listFiltered fault user query s).1.records =
      match fault with
      | some _ => []
      | none => sortByLastLoginDesc (s.users.filter (listFilteredFilter user query).matches) := by
  cases fault <;> simp [listFiltered, UserObject.find, Response.records, Except.map]

theorem find_congr (fault : Option RepoError) (f g : Filter) (s : Store)
    (h : ∀ u, f.matches u = g.matches u) :
    UserObject.find fault f s = UserObject.find fault g s := by
  have hfg : f.matches = g.matches := funext h
  simp [UserObject.find, hfg]

theorem listFilteredFilter_erase (user : Principal) (query : Filter) (u : User) :
    (listFilteredFilter user query).matches u =
      (listFilteredFilter user (Obj.erase query "organisation")).matches u := by
  rw [Bool.eq_iff_iff]
  simp only [listFilteredFilter, matches_set, erase_erase]

/-! ## Tenant scoping of `GET /` -/

theorem listFiltered_records_organisation (fault : Option RepoError) (user : Principal)
    (query : Filter) (s : Store) :
    ∀ u ∈ (listFiltered fault user query s).1.records, u.organisation = user.organisation := by
  intro u hu
  rw [listFiltered_records] at hu
  cases fault with
  | some e => simp at hu
  | none =>
    simp only [mem_sortByLastLoginDesc, List.mem_filter] at hu
    have hm := ((matches_set _ _ _ u).mp hu.2).1
    simpa [Cond.holds, field_organisation] using hm

/-- C1: for every principal, query and repository state, the filter that
`GET /` passes to the repository holds `organisation` equal to the principal's
organisation, also when the query carries its own `organisation` key; every
record of the response is of the principal's organisation; and the outcome is
the one of the query without its `organisation` key. -/
theorem listFiltered_tenant_filter_wins (fault : Option RepoError) (user : Principal)
    (query : Filter) (s : Store) :
    Obj.get? (listFilteredFilter user query) "organisation"
        = some (Cond.eq (Value.str user.organisation))
      ∧ (∀ e ∈ listFilteredFilter user query, e.1 = "organisation" →
          e.2 = Cond.eq (Value.str user.organisation))
      ∧ (∀ u ∈ (listFiltered fault user query s).1.records,
          u.organisation = user.organisation)
      ∧ listFiltered fault user query s
          = listFiltered fault user (Obj.erase query "organisation") s := by
  refine ⟨get_set _ _ _, ?_, ?_, ?_⟩
  · intro e he hk
    rcases (mem_set _ _ _ e).mp he with rfl | ⟨_, hne⟩
    · rfl
    · exact absurd hk hne
  · exact listFiltered_records_organisation fault user query s
  · unfold listFiltered
    rw [find_congr fault _ _ s (listFilteredFilter_erase user query)]

/-- C1 at a concrete request: a caller of `acme` who sends
`organisation=other` receives the `acme` records, the same as with an empty
query. -/
theorem listFiltered_tenant_filter_wins_witness :
    (listFiltered none acmeAdmin [("organisation", Cond.eq (Value.str "other"))]
        sampleStore).1.records = [dario, bruno, alice]
      ∧ listFiltered none acmeAdmin [("organisation", Cond.eq (Value.str "other"))] sampleStore
          = listFiltered none acmeAdmin
              (Obj.erase [("organisation", Cond.eq (Value.str "other"))] "organisation")
              sampleStore :=
  ⟨by decide,
   (listFiltered_tenant_filter_wins none acmeAdmin
      [("organisation", Cond.eq (Value.str "other"))] sampleStore).2.2.2⟩

/-! ## `GET /available` -/

/-- C3: for every principal and repository state, `GET /available` answers 200
with a list that holds a record exactly when the record is stored, is of the
principal's organisation and has an availability other than
`"not available"`; no response of the handler carries a record whose
availability is `"not available"`. -/
theorem listAvailable_membership (user : Principal) (s : Store) :
    (listAvailable none user s).1.status = 200
      ∧ (∃ users, (listAvailable none user s).1.body.data = some (Payload.many users)
          ∧ ∀ u, u ∈ users ↔
            (u ∈ s.users ∧ u.organisation = user.organisation
              ∧ u.availability ≠ some "not available"))
      ∧ (∀ fault, ∀ u ∈ (listAvailable fault user s).1.records,
          u.availability ≠ some "not available") := by
  refine ⟨rfl, ⟨sortByLastLoginDesc (s.users.filter (availableFilter user).matches), rfl, ?_⟩, ?_⟩
  · intro u
    simp only [mem_sortByLastLoginDesc, List.mem_filter, matches_availableFilter]
    tauto
  · intro fault u hu
    rw [listAvailable_records] at hu
    cases fault with
    | some e => simp at hu
    | none =>
      simp only [mem_sortByLastLoginDesc, List.mem_filter, matches_availableFilter] at hu
      exact hu.2.1

/-- C3 at a concrete state: of the four stored records, the `acme` records
that are not `"not available"` are listed. -/
theorem listAvailable_membership_witness :
    (listAvailable none acmeAdmin sampleStore).1.body.data = some (Payload.many [dario, alice])
      ∧ ∀ u ∈ (listAvailable none acmeAdmin sampleStore).1.records,
          u.availability ≠ some "not available" :=
  ⟨by decide, (listAvailable_membership acmeAdmin sampleStore).2.2 none⟩

/-! ## Ordering of the list responses -/

/-- C8: for every principal, query and repository state, the lists answered by
`GET /available` and `GET /` are ordered by `last_login_at` descending: of two
adjacent records the earlier has a `last_login_at` at least the later one's. -/
theorem lists_ordered_by_last_login (fault : Option RepoError) (user : Principal)
    (query : Filter) (s : Store) :
    List.Chain' (fun a b => lastLoginLE b.last_login_at a.last_login_at = true)
        (listAvailable fault user s).1.records
      ∧ List.Chain' (fun a b => lastLoginLE b.last_login_at a.last_login_at = true)
        (listFiltered fault user query s).1.records := by
  rw [listAvailable_records, listFiltered_records]
  cases fault with
  | some e => exact ⟨List.chain'_nil, List.chain'_nil⟩
  | none => exact ⟨sortByLastLoginDesc_chain _, sortByLastLoginDesc_chain _⟩

/-- C8 at a concrete state: the timestamps of the listed records descend. -/
theorem lists_ordered_by_last_login_witness :
    (listFiltered none acmeAdmin [] sampleStore).1.records.map (fun u => u.last_login_at)
        = [some 40, some 30, some 20]
      ∧ List.Chain' (fun a b => lastLoginLE b.last_login_at a.last_login_at = true)
        (listFiltered none acmeAdmin [] sampleStore).1.records :=
  ⟨by decide, (lists_ordered_by_last_login none acmeAdmin [] sampleStore).2⟩

/-! ## `POST /` -/

theorem append_dash_ne (a b : String) : a ++ "-" ++ b ≠ a := by
  intro h
  have hl := congrArg String.length h
  simp only [String.length_append] at hl
  have h1 : "-".length = 1 := rfl
  omega

/-- C4: for every request to `POST /` whose password `validatePassword`
rejects, whatever the other fields and whatever the repository would do, the
response is 400 with body `ok: false, user: null, code: PASSWORD_NOT_VALIDATED`
and the repository state is unchanged. -/
theorem createUser_password_rejected (validatePassword validateEmail : Option String → Bool)
    (fault : Option RepoError) (user : Principal) (body : CreateBody) (s : Store)
    (h : validatePassword body.password = false) :
    createUser validatePassword validateEmail fault user body s =
      ({ status := 400,
         body := { ok := false, user := some Payload.null,
                   code := some "PASSWORD_NOT_VALIDATED" } }, s) := by
  simp [createUser, h, PASSWORD_NOT_VALIDATED]

/-- C4 at a concrete request: a three-letter password under the
eight-character policy. -/
theorem createUser_password_rejected_witness :
    atLeastEight (some "abc") = false
      ∧ createUser atLeastEight hasAtSign none acmeAdmin
          { password := some "abc", username := some "bob", email := some "bob@acme.io" }
          sampleStore =
        ({ status := 400,
           body := { ok := false, user := some Payload.null,
                     code := some "PASSWORD_NOT_VALIDATED" } }, sampleStore) :=
  ⟨by decide, createUser_password_rejected atLeastEight hasAtSign none acmeAdmin
    { password := some "abc", username := some "bob", email := some "bob@acme.io" }
    sampleStore (by decide)⟩

/-- C5 fails as stated: with a rejected email and a rejected password the
handler answers `PASSWORD_NOT_VALIDATED`, not `EMAIL_NOT_VALIDATED`. -/
theorem createUser_email_rejected_counterexample :
    hasAtSign (some "bob.acme.io") = false
      ∧ (createUser atLeastEight hasAtSign none acmeAdmin
          { password := some "abc", username := some "bob", email := some "bob.acme.io" }
          sampleStore).1.body.code = some "PASSWORD_NOT_VALIDATED"
      ∧ (createUser atLeastEight hasAtSign none acmeAdmin
          { password := some "abc", username := some "bob", email := some "bob.acme.io" }
          sampleStore).1.body.code ≠ some "EMAIL_NOT_VALIDATED" := by
  decide

/-- C5 amended: for every request to `POST /` whose email the email validator
rejects, the response has status 400 and no record is created; when
`validatePassword` accepts the password the body is
`ok: false, user: null, code: EMAIL_NOT_VALIDATED`, and when it rejects the
password the code is `PASSWORD_NOT_VALIDATED`. -/
theorem createUser_email_rejected (validatePassword validateEmail : Option String → Bool)
    (fault : Option RepoError) (user : Principal) (body : CreateBody) (s : Store)
    (h : validateEmail body.email = false) :
    (createUser validatePassword validateEmail fault user body s).1.status = 400
      ∧ (createUser validatePassword validateEmail fault user body s).2 = s
      ∧ (validatePassword body.password = true →
          createUser validatePassword validateEmail fault user body s =
            ({ status := 400,
               body := { ok := false, user := some Payload.null,
                         code := some "EMAIL_NOT_VALIDATED" } }, s))
      ∧ (validatePassword body.password = false →
          (createUser validatePassword validateEmail fault user body s).1.body.code
            = some "PASSWORD_NOT_VALIDATED") := by
  cases hp : validatePassword body.password <;>
    simp [createUser, h, hp, PASSWORD_NOT_VALIDATED, EMAIL_NOT_VALIDATED]

/-- C5 amended at a concrete request: an accepted password with an email
that lacks the `@`. -/
theorem createUser_email_rejected_witness :
    hasAtSign (some "bob.acme.io") = false
      ∧ createUser atLeastEight hasAtSign none acmeAdmin
          { password := some "Passw0rd!", username := some "bob", email := some "bob.acme.io" }
          sampleStore =
        ({ status := 400,
           body := { ok := false, user := some Payload.null,
                     code := some "EMAIL_NOT_VALIDATED" } }, sampleStore) :=
  ⟨by decide, (createUser_email_rejected atLeastEight hasAtSign none acmeAdmin
    { password := some "Passw0rd!", username := some "bob", email := some "bob.acme.io" }
    sampleStore (by decide)).2.2.1 (by decide)⟩

/-- C6: for every request to `POST /` that passes both validations and whose
repository create fails with error `e`: when `e.code` is 11000 the response is
409 with body `ok: false, code: USER_ALREADY_REGISTERED`; otherwise it is 500
with body `ok: false, code: SERVER_ERROR` and no `error` key; in both cases
the repository state is unchanged. -/
theorem createUser_repository_failure (validatePassword validateEmail : Option String → Bool)
    (fault : Option RepoError) (user : Principal) (body : CreateBody) (s : Store)
    (e : RepoError)
    (hp : validatePassword body.password = true) (he : validateEmail body.email = true)
    (hfail : UserObject.create fault (createDoc user body) s = Except.error e) :
    (e.code = some 11000 →
        createUser validatePassword validateEmail fault user body s =
          ({ status := 409,
             body := { ok := false, code := some "USER_ALREADY_REGISTERED" } }, s))
      ∧ (e.code ≠ some 11000 →
        createUser validatePassword validateEmail fault user body s =
          ({ status := 500, body := { ok := false, code := some "SERVER_ERROR" } }, s)) := by
  constructor
  · intro hc
    simp [createUser, hp, he, hfail, hc, USER_ALREADY_REGISTERED]
  · intro hc
    simp [createUser, hp, he, hfail, hc, SERVER_ERROR]

/-- C6 at concrete requests: the same signup sent twice is refused the second
time with 409, and a storage failure without a code gives 500; the store is
left as it was. -/
theorem createUser_repository_failure_witness :
    createUser atLeastEight hasAtSign none acmeAdmin bobBody
        (createUser atLeastEight hasAtSign none acmeAdmin bobBody sampleStore).2 =
      ({ status := 409, body := { ok := false, code := some "USER_ALREADY_REGISTERED" } },
        (createUser atLeastEight hasAtSign none acmeAdmin bobBody sampleStore).2)
      ∧ createUser atLeastEight hasAtSign (some { code := none, name := "Timeout" })
          acmeAdmin bobBody sampleStore =
        ({ status := 500, body := { ok := false, code := some "SERVER_ERROR" } },
          sampleStore) :=
  ⟨(createUser_repository_failure atLeastEight hasAtSign none acmeAdmin bobBody
      (createUser atLeastEight hasAtSign none acmeAdmin bobBody sampleStore).2
      duplicateKeyError (by decide) (by decide) rfl).1 (by decide),
   (createUser_repository_failure atLeastEight hasAtSign
      (some { code := none, name := "Timeout" }) acmeAdmin bobBody sampleStore
      { code := none, name := "Timeout" } (by decide) (by decide) rfl).2 (by decide)⟩

theorem create_ok (fault : Option RepoError) (doc : NewUser) (s : Store) (u : User)
    (s1 : Store) (h : UserObject.create fault doc s = Except.ok (u, s1)) :
    u.organisation = doc.organisation ∧ u ∈ s1.users := by
  unfold UserObject.create at h
  cases fault with
  | some e => simp at h
  | none =>
    simp only at h
    split at h
    · simp at h
    · simp only [Except.ok.injEq, Prod.mk.injEq] at h
      obtain ⟨rfl, rfl⟩ := h
      simp

theorem createUser_data (validatePassword validateEmail : Option String → Bool)
    (fault : Option RepoError) (user : Principal) (body : CreateBody) (s : Store)
    (created : User)
    (h : (createUser validatePassword validateEmail fault user body s).1.body.data
          = some (Payload.one created)) :
    UserObject.create fault (createDoc user body) s
      = Except.ok (created, (createUser validatePassword validateEmail fault user body s).2) := by
  unfold createUser at h ⊢
  by_cases hp : validatePassword body.password = true
  · by_cases he : validateEmail body.email = true
    · cases hc : UserObject.create fault (createDoc user body) s with
      | error e =>
        by_cases hcode : e.code = some 11000 <;> simp [hp, he, hc, hcode] at h
      | ok r =>
        obtain ⟨u, s1⟩ := r
        simp only [hp, he, hc] at h ⊢
        simp at h
        simp [h]
    · simp [hp, he] at h
  · simp [hp] at h

/-- C10: for every request to `POST /` that succeeds with the created record
in `data`, the record's organisation is the principal's organisation followed
by `-` and the username, which differs from the principal's organisation; the
record is stored, and no `GET /` or `GET /available` response to the same
principal carries it, whatever the query and the repository state. -/
theorem createUser_organisation (validatePassword validateEmail : Option String → Bool)
    (fault : Option RepoError) (user : Principal) (body : CreateBody) (s : Store)
    (created : User)
    (h : (createUser validatePassword validateEmail fault user body s).1.body.data
          = some (Payload.one created)) :
    created.organisation = user.organisation ++ "-" ++ jsString body.username
      ∧ created.organisation ≠ user.organisation
      ∧ created ∈ (createUser validatePassword validateEmail fault user body s).2.users
      ∧ ∀ (fault2 : Option RepoError) (query : Filter) (s2 : Store),
          created ∉ (listFiltered fault2 user query s2).1.records
            ∧ created ∉ (listAvailable fault2 user s2).1.records := by
  have key : created.organisation = user.organisation ++ "-" ++ jsString body.username
      ∧ created ∈ (createUser validatePassword validateEmail fault user body s).2.users :=
    create_ok fault (createDoc user body) s created _
      (createUser_data validatePassword validateEmail fault user body s created h)
  obtain ⟨horg, hmem⟩ := key
  have hne : created.organisation ≠ user.organisation := by
    rw [horg]; exact append_dash_ne _ _
  refine ⟨horg, hne, hmem, ?_⟩
  intro fault2 query s2
  constructor
  · intro hin
    exact hne (listFiltered_records_organisation fault2 user query s2 created hin)
  · intro hin
    rw [listAvailable_records] at hin
    cases fault2 with
    | some e => simp at hin
    | none =>
      simp only [mem_sortByLastLoginDesc, List.mem_filter, matches_availableFilter] at hin
      exact hne hin.2.2

/-- C10 at a concrete request: `bob`, created by a caller of `acme`, is stored
under the organisation `acme-bob` and is absent from the caller's listing of
the resulting store. -/
theorem createUser_organisation_witness :
    (createUser atLeastEight hasAtSign none acmeAdmin bobBody sampleStore).1.body.data
        = some (Payload.one
            { _id := 5, name := some "bob", organisation := "acme-bob",
              email := some "bob@acme.io", password := some "Passw0rd!", status := none,
              availability := none, role := none, last_login_at := none })
      ∧ (listFiltered none acmeAdmin []
          (createUser atLeastEight hasAtSign none acmeAdmin bobBody sampleStore).2).1.records
        = [dario, bruno, alice]
      ∧ ({ _id := 5, name := some "bob", organisation := "acme-bob",
           email := some "bob@acme.io", password := some "Passw0rd!", status := none,
           availability := none, role := none, last_login_at := none } : User).organisation
        ≠ acmeAdmin.organisation :=
  ⟨by decide, by decide,
   (createUser_organisation atLeastEight hasAtSign none acmeAdmin bobBody sampleStore
      { _id := 5, name := some "bob", organisation := "acme-bob",
        email := some "bob@acme.io", password := some "Passw0rd!", status := none,
        availability := none, role := none, last_login_at := none } (by decide)).2.1⟩

/-! ## Updates and deletion by identifier -/

theorem replaceById_filter (id : Nat) (v : User) (hv : v._id = id) (us : List User) :
    (replaceById id v us).filter (fun u => decide (u._id ≠ id))
      = us.filter (fun u => decide (u._id ≠ id)) := by
  induction us with
  | nil => rfl
  | cons u us ih =>
    unfold replaceById
    by_cases h : u._id = id
    · simp [h, hv]
    · simp only [decide_not] at ih
      simp [h, ih]

theorem replaceById_map {β : Type} (f : User → β) (id : Nat) (u v : User) (us : List User)
    (hfind : us.find? (fun w => decide (w._id = id)) = some u) (hf : f v = f u) :
    (replaceById id v us).map f = us.map f := by
  induction us with
  | nil => simp at hfind
  | cons w us ih =>
    unfold replaceById
    by_cases h : w._id = id
    · simp only [List.find?_cons, h, decide_True] at hfind
      simp only [Option.some.injEq] at hfind
      subst hfind
      simp [h, hf]
    · have hfind2 : us.find? (fun w => decide (w._id = id)) = some u := by
        simpa [List.find?_cons, h] using hfind
      simp [h, ih hfind2]

theorem eraseP_idFilter (id : Nat) (us : List User) :
    (us.eraseP (Filter.matches [("_id", Cond.eq (Value.num id))])).filter
        (fun u => decide (u._id ≠ id))
      = us.filter (fun u => decide (u._id ≠ id)) := by
  induction us with
  | nil => rfl
  | cons u us ih =>
    by_cases h : u._id = id
    · have hm : Filter.matches [("_id", Cond.eq (Value.num id))] u = true :=
        (matches_idFilter id u).mpr h
      simp [List.eraseP_cons, hm, h]
    · have hm : ¬ Filter.matches [("_id", Cond.eq (Value.num id))] u = true :=
        fun hm => h ((matches_idFilter id u).mp hm)
      simp only [decide_not] at ih
      simp [List.eraseP_cons, hm, h, ih]

theorem eraseP_absent (id : Nat) (us : List User) (h : ∀ u ∈ us, u._id ≠ id) :
    us.eraseP (Filter.matches [("_id", Cond.eq (Value.num id))]) = us := by
  apply List.eraseP_of_forall_not
  intro u hu hm
  exact h u hu ((matches_idFilter id u).mp hm)

theorem eraseP_unique (id : Nat) (us : List User)
    (hn : List.Nodup (us.map (fun u : User => u._id))) :
    ∀ u ∈ us.eraseP (Filter.matches [("_id", Cond.eq (Value.num id))]), u._id ≠ id := by
  induction us with
  | nil => simp
  | cons w us ih =>
    simp only [List.map_cons, List.nodup_cons, List.mem_map, not_exists, not_and] at hn
    by_cases h : w._id = id
    · have hm : Filter.matches [("_id", Cond.eq (Value.num id))] w = true :=
        (matches_idFilter id w).mpr h
      intro u hu
      simp only [List.eraseP_cons, hm, cond_true] at hu
      intro hu2
      exact hn.1 u hu (by rw [hu2, h])
    · have hm : ¬ Filter.matches [("_id", Cond.eq (Value.num id))] w = true :=
        fun hm => h ((matches_idFilter id w).mp hm)
      intro u hu
      simp only [List.eraseP_cons, hm, cond_false] at hu
      rcases List.mem_cons.mp hu with rfl | hu
      · exact h
      · exact ih hn.2 u hu

/-- The outcomes of update-by-id: a failure, no record with the identifier, or
the first record with the identifier replaced by its patched version. -/
theorem findByIdAndUpdate_cases (fault : Option RepoError) (id : Nat) (obj : Patch)
    (s : Store) :
    (∃ e, UserObject.findByIdAndUpdate fault id obj s = Except.error e)
      ∨ (s.users.find? (fun u => decide (u._id = id)) = none
          ∧ UserObject.findByIdAndUpdate fault id obj s = Except.ok (none, s))
      ∨ (∃ u, s.users.find? (fun u => decide (u._id = id)) = some u
          ∧ UserObject.findByIdAndUpdate fault id obj s
            = Except.ok (some (obj.apply u),
                { users := replaceById id (obj.apply u) s.users, nextId := s.nextId })) := by
  unfold UserObject.findByIdAndUpdate
  cases fault with
  | some e => exact Or.inl ⟨e, rfl⟩
  | none =>
    cases hf : s.users.find? (fun u => decide (u._id = id)) with
    | none => exact Or.inr (Or.inl ⟨rfl, rfl⟩)
    | some u =>
      simp only
      split
      · exact Or.inl ⟨_, rfl⟩
      · exact Or.inr (Or.inr ⟨u, rfl, rfl⟩)

theorem find_id_apply (id : Nat) (obj : Patch) (u : User)
    (h : u._id = id) : (obj.apply u)._id = id := h

theorem find_id (id : Nat) (u : User) (us : List User)
    (h : us.find? (fun w => decide (w._id = id)) = some u) : u ∈ us ∧ u._id = id :=
  ⟨List.mem_of_find?_eq_some h, by simpa using List.find?_some h⟩

theorem updateById_outcome (fault : Option RepoError) (user : Principal) (id : Nat)
    (obj : Patch) (s : Store) : UpdateOutcome id obj s (updateById fault user id obj s) := by
  unfold UpdateOutcome updateById
  rcases findByIdAndUpdate_cases fault id obj s with ⟨e, h⟩ | ⟨_, h⟩ | ⟨u, hu, h⟩
  · left; simp [h, Response.records]
  · left; simp [h, Response.records, Payload.ofOption]
  · right; exact ⟨u, hu, by simp [h, Response.records, Payload.ofOption]⟩

theorem updateSelf_outcome (fault : Option RepoError) (user : Principal) (obj : Patch)
    (s : Store) : UpdateOutcome user._id obj s (updateSelf fault user obj s) := by
  unfold UpdateOutcome updateSelf
  rcases findByIdAndUpdate_cases fault user._id obj s with ⟨e, h⟩ | ⟨_, h⟩ | ⟨u, hu, h⟩
  · left; simp [h, Response.records]
  · left; simp [h, Response.records, Payload.ofOption]
  · right; exact ⟨u, hu, by simp [h, Response.records, Payload.ofOption]⟩

theorem outcome_frame (id : Nat) (obj : Patch) (s : Store) (r : Response × Store)
    (h : UpdateOutcome id obj s r) :
    r.2.users.filter (fun u => decide (u._id ≠ id))
      = s.users.filter (fun u => decide (u._id ≠ id)) := by
  rcases h with ⟨h, _⟩ | ⟨u, hu, h, _⟩
  · rw [h]
  · rw [h]
    exact replaceById_filter id (obj.apply u) (find_id_apply id obj u (find_id id u _ hu).2)
      s.users

theorem deleteById_eq (user : Principal) (id : Nat) (s : Store) :
    deleteById none user id s =
      ({ status := 200, body := { ok := true } },
        { users := s.users.eraseP (Filter.matches [("_id", Cond.eq (Value.num id))]),
          nextId := s.nextId }) := rfl

theorem deleteById_frame (fault : Option RepoError) (user : Principal) (id : Nat) (s : Store) :
    (deleteById fault user id s).2.users.filter (fun u => decide (u._id ≠ id))
      = s.users.filter (fun u => decide (u._id ≠ id)) := by
  cases fault with
  | some e => rfl
  | none => rw [deleteById_eq]; exact eraseP_idFilter id s.users

theorem mem_of_filter_eq (id : Nat) (us vs : List User)
    (h : vs.filter (fun u => decide (u._id ≠ id)) = us.filter (fun u => decide (u._id ≠ id)))
    (u : User) (hu : u ∈ us) (hid : u._id ≠ id) : u ∈ vs := by
  have : u ∈ us.filter (fun u => decide (u._id ≠ id)) := by
    simp [List.mem_filter, hu, hid]
  rw [← h] at this
  exact (List.mem_filter.mp this).1

/-- C2 fails as stated: a caller of `acme` removes, and rewrites, the record
of `carla`, who belongs to `other`. -/
theorem mutation_other_tenant_counterexample :
    carla ∈ sampleStore.users
      ∧ carla.organisation ≠ acmeAdmin.organisation
      ∧ carla ∉ (deleteById none acmeAdmin 3 sampleStore).2.users
      ∧ carla ∉ (updateById none acmeAdmin 3 { status := some (some "blocked") }
          sampleStore).2.users
      ∧ (updateById none acmeAdmin 3 { status := some (some "blocked") }
          sampleStore).1.records.map (fun u => (u.organisation, u.status))
        = [("other", some "blocked")] := by
  decide

/-- C2 amended: `PUT /:id` and `DELETE /:id` act on the record with the given
identifier whoever the principal is; they leave unchanged every stored record
with another identifier, and so every stored record of another organisation
whenever the identifier names no record of another organisation. -/
theorem mutation_frame (fault : Option RepoError) (user : Principal) (id : Nat) (obj : Patch)
    (s : Store) :
    (updateById fault user id obj s).2.users.filter (fun u => decide (u._id ≠ id))
        = s.users.filter (fun u => decide (u._id ≠ id))
      ∧ (deleteById fault user id s).2.users.filter (fun u => decide (u._id ≠ id))
        = s.users.filter (fun u => decide (u._id ≠ id))
      ∧ (∀ other : Principal, updateById fault other id obj s = updateById fault user id obj s
          ∧ deleteById fault other id s = deleteById fault user id s)
      ∧ ((∀ u ∈ s.users, u._id = id → u.organisation = user.organisation) →
          ∀ u ∈ s.users, u.organisation ≠ user.organisation →
            u ∈ (updateById fault user id obj s).2.users
              ∧ u ∈ (deleteById fault user id s).2.users) := by
  have hu := outcome_frame id obj s _ (updateById_outcome fault user id obj s)
  have hd := deleteById_frame fault user id s
  refine ⟨hu, hd, fun _ => ⟨rfl, rfl⟩, ?_⟩
  intro hown u hmem horg
  have hid : u._id ≠ id := fun h => horg (hown u hmem h)
  exact ⟨mem_of_filter_eq id _ _ hu u hmem hid, mem_of_filter_eq id _ _ hd u hmem hid⟩

/-- C2 amended at a concrete request: a caller of `acme` updating and removing
record 2, an `acme` record, leaves `carla` of `other` stored as she was. -/
theorem mutation_frame_witness :
    (∀ u ∈ sampleStore.users, u._id = 2 → u.organisation = acmeAdmin.organisation)
      ∧ carla ∈ (updateById none acmeAdmin 2 { status := some (some "blocked") }
          sampleStore).2.users
      ∧ carla ∈ (deleteById none acmeAdmin 2 sampleStore).2.users :=
  ⟨by decide,
   (mutation_frame none acmeAdmin 2 { status := some (some "blocked") } sampleStore).2.2.2
      (by decide) carla (by decide) (by decide)⟩

/-- C7: for every principal, identifier and repository state in which no
stored record has the identifier, `DELETE /:id` answers 200 with body
`ok: true` and leaves the state unchanged; and in every state with unique
identifiers, deleting the same identifier a second time gives the response
and the state of deleting it once. -/
theorem deleteById_idempotent (user : Principal) (id : Nat) (s : Store) :
    ((∀ u ∈ s.users, u._id ≠ id) →
        deleteById none user id s = ({ status := 200, body := { ok := true } }, s))
      ∧ (s.uniqueIds →
        deleteById none user id (deleteById none user id s).2 = deleteById none user id s) := by
  constructor
  · intro h
    rw [deleteById_eq, eraseP_absent id s.users h]
  · intro hn
    have habs := eraseP_unique id s.users hn
    rw [deleteById_eq, deleteById_eq]
    simp only [eraseP_absent id _ habs]

/-- C7 at concrete requests: deleting the unknown identifier 9 changes
nothing, and deleting identifier 3 twice ends as deleting it once. -/
theorem deleteById_idempotent_witness :
    (∀ u ∈ sampleStore.users, u._id ≠ 9)
      ∧ deleteById none acmeAdmin 9 sampleStore
          = ({ status := 200, body := { ok := true } }, sampleStore)
      ∧ sampleStore.uniqueIds
      ∧ deleteById none acmeAdmin 3 (deleteById none acmeAdmin 3 sampleStore).2
          = deleteById none acmeAdmin 3 sampleStore :=
  ⟨by decide, (deleteById_idempotent acmeAdmin 9 sampleStore).1 (by decide), by decide,
   (deleteById_idempotent acmeAdmin 3 sampleStore).2 (by decide)⟩

theorem mem_replaceById (id : Nat) (v : User) (us : List User) (u : User)
    (hmem : u ∈ us) (hid : u._id = id) : v ∈ replaceById id v us := by
  induction us with
  | nil => exact absurd hmem (List.not_mem_nil _)
  | cons w us ih =>
    unfold replaceById
    by_cases hw : w._id = id
    · simp [hw]
    · rcases List.mem_cons.mp hmem with rfl | hmem
      · exact absurd hid hw
      · simp only [hw, if_false]
        exact List.mem_cons_of_mem _ (ih hmem)

theorem outcome_organisation_kept (id : Nat) (obj : Patch) (s : Store) (r : Response × Store)
    (h : UpdateOutcome id obj s r) :
    r.2.users.map (fun u => (u._id, u.organisation))
        = s.users.map (fun u => (u._id, u.organisation))
      ∧ ∀ v ∈ r.1.records, v ∈ r.2.users
          ∧ ∃ u, s.users.find? (fun w => decide (w._id = id)) = some u
              ∧ v.organisation = u.organisation := by
  rcases h with ⟨h, hr⟩ | ⟨u, hu, h, hr⟩
  · rw [h, hr]; simp
  · rw [h, hr]
    refine ⟨replaceById_map _ id u (obj.apply u) s.users hu rfl, ?_⟩
    intro v hv
    rw [List.mem_singleton] at hv
    subst hv
    have hid := find_id id u s.users hu
    exact ⟨mem_replaceById id (obj.apply u) s.users u hid.1 hid.2, u, hu, rfl⟩

/-- C9: for every principal, identifier, repository state and patch, also a
patch with an `organisation` key, `PUT /:id` and `PUT /` leave the
organisation of every stored record as it was, and the record they answer is
stored and has the organisation that the record with the identifier had
before the update. -/
theorem update_organisation (fault : Option RepoError) (user : Principal) (id : Nat)
    (obj : Patch) (s : Store) :
    ((updateById fault user id obj s).2.users.map (fun u => (u._id, u.organisation))
          = s.users.map (fun u => (u._id, u.organisation))
        ∧ ∀ v ∈ (updateById fault user id obj s).1.records,
            v ∈ (updateById fault user id obj s).2.users
              ∧ ∃ u, s.users.find? (fun w => decide (w._id = id)) = some u
                  ∧ v.organisation = u.organisation)
      ∧ ((updateSelf fault user obj s).2.users.map (fun u => (u._id, u.organisation))
          = s.users.map (fun u => (u._id, u.organisation))
        ∧ ∀ v ∈ (updateSelf fault user obj s).1.records,
            v ∈ (updateSelf fault user obj s).2.users
              ∧ ∃ u, s.users.find? (fun w => decide (w._id = user._id)) = some u
                  ∧ v.organisation = u.organisation) :=
  ⟨outcome_organisation_kept id obj s _ (updateById_outcome fault user id obj s),
   outcome_organisation_kept user._id obj s _ (updateSelf_outcome fault user obj s)⟩

/-- C9 at a concrete request: a patch that carries `organisation: "other"`
and a new status for `alice` of `acme` changes her status and leaves her in
`acme`, as it leaves every stored organisation. -/
theorem update_organisation_witness :
    ({ organisation := some "other", status := some (some "blocked") } : Patch).organisation
        = some "other"
      ∧ (updateById none acmeAdmin 1
          { organisation := some "other", status := some (some "blocked") }
          sampleStore).1.records.map (fun u => (u._id, u.organisation, u.status))
        = [(1, "acme", some "blocked")]
      ∧ (updateById none acmeAdmin 1
          { organisation := some "other", status := some (some "blocked") }
          sampleStore).2.users.map (fun u => (u._id, u.organisation))
        = sampleStore.users.map (fun u => (u._id, u.organisation)) :=
  ⟨rfl, by decide,
   (update_organisation none acmeAdmin 1
      { organisation := some "other", status := some (some "blocked") } sampleStore).1.1⟩

/-! ## Well-formed repository states -/

theorem outcome_wellFormed (id : Nat) (obj : Patch) (s : Store) (r : Response × Store)
    (h : UpdateOutcome id obj s r) (hs : s.wellFormed) : r.2.wellFormed := by
  rcases h with ⟨h, _⟩ | ⟨u, hu, h, _⟩
  · rw [h]; exact hs
  · have hmap : (replaceById id (obj.apply u) s.users).map (fun w : User => w._id)
        = s.users.map (fun w : User => w._id) :=
      replaceById_map _ id u (obj.apply u) s.users hu rfl
    rw [h]
    refine ⟨?_, ?_⟩
    · unfold Store.uniqueIds
      simp only []
      rw [hmap]
      exact hs.1
    · intro w hw
      have hin : w._id ∈ (replaceById id (obj.apply u) s.users).map (fun w : User => w._id) :=
        List.mem_map_of_mem _ hw
      rw [hmap] at hin
      obtain ⟨w2, hw2, hid⟩ := List.mem_map.mp hin
      have := hs.2 w2 hw2
      simp only at hid ⊢
      omega

theorem create_wellFormed (fault : Option RepoError) (doc : NewUser) (s : Store) (u : User)
    (s1 : Store) (h : UserObject.create fault doc s = Except.ok (u, s1))
    (hs : s.wellFormed) : s1.wellFormed := by
  unfold UserObject.create at h
  cases fault with
  | some e => simp at h
  | none =>
    simp only at h
    split at h
    · simp at h
    · simp only [Except.ok.injEq, Prod.mk.injEq] at h
      obtain ⟨rfl, rfl⟩ := h
      refine ⟨?_, ?_⟩
      · unfold Store.uniqueIds
        simp only [List.map_append, List.map_cons, List.map_nil]
        refine List.Nodup.append hs.1 (List.nodup_singleton _) ?_
        intro a ha hb
        obtain ⟨w, hw, rfl⟩ := List.mem_map.mp ha
        have := hs.2 w hw
        simp only [List.mem_singleton] at hb
        omega
      · intro w hw
        simp only [List.mem_append, List.mem_singleton] at hw
        rcases hw with hw | rfl
        · have := hs.2 w hw
          simp only
          omega
        · simp

/-- The mutating handlers keep the repository state well-formed. -/
theorem handlers_keep_wellFormed (validatePassword validateEmail : Option String → Bool)
    (fault : Option RepoError) (user : Principal) (id : Nat) (body : CreateBody)
    (obj : Patch) (s : Store) (hs : s.wellFormed) :
    (createUser validatePassword validateEmail fault user body s).2.wellFormed
      ∧ (updateById fault user id obj s).2.wellFormed
      ∧ (updateSelf fault user obj s).2.wellFormed
      ∧ (deleteById fault user id s).2.wellFormed := by
  refine ⟨?_, outcome_wellFormed id obj s _ (updateById_outcome fault user id obj s) hs,
    outcome_wellFormed user._id obj s _ (updateSelf_outcome fault user obj s) hs, ?_⟩
  · unfold createUser
    by_cases hp : validatePassword body.password = true
    · by_cases he : validateEmail body.email = true
      · cases hc : UserObject.create fault (createDoc user body) s with
        | error e =>
          by_cases hcode : e.code = some 11000 <;> simpa [hp, he, hc, hcode] using hs
        | ok r =>
          obtain ⟨u, s1⟩ := r
          simpa [hp, he, hc] using create_wellFormed fault _ s u s1 hc hs
      · simpa [hp, he] using hs
    · simpa [hp] using hs
  · cases fault with
    | some e => exact hs
    | none =>
      rw [deleteById_eq]
      have hsub : List.Sublist
          (s.users.eraseP (Filter.matches [("_id", Cond.eq (Value.num id))])) s.users :=
        List.eraseP_sublist s.users
      refine ⟨?_, ?_⟩
      · exact List.Nodup.sublist (List.Sublist.map _ hsub) hs.1
      · intro w hw
        exact hs.2 w (hsub.subset hw)

end UserController
